import Mathlib

/-!
Verification of the zero-based-inbox-processor orchestrator.

This file is a shallow embedding of `src/minimalist_agent.py`.  The
generation engine (Gemini) is an external collaborator: a run's gateway
behavior is modelled as the pair of outcomes the engine would return for
the primary `chat.send_message` call and the A2A `model.generate_content`
call (the orchestrator makes at most one of each, in that order, so the
pair captures every reachable behavior).  Python exceptions are modelled
with `Except`, the raised error carrying the `final_results` accumulator
and call trace as they stood when the exception was raised, matching the
mutable list that survives into the `except` handlers.
-/

set_option maxRecDepth 8000

namespace MinimalistAgent

/-- Python values that can appear in a tool call's argument mapping
(`dict(function_call.args)`).  The fields of both schemas are strings,
lists of strings, or `None` (`Optional[str]` fields). -/
inductive Value where
  | none
  | str (s : String)
  | strList (l : List String)
deriving DecidableEq

/-- Python truthiness for the values above: `None`, the empty string and
the empty list are falsy, everything else is truthy. -/
def truthy : Value → Bool
  | Value.none => false
  | Value.str s => !(s == "")
  | Value.strList l => !(l == [])

/-- Python `str()` conversion, used by the f-string that builds the A2A
prompt from the embedded task value. -/
def pyStr : Value → String
  | Value.none => "None"
  | Value.str s => s
  | Value.strList l => "[" ++ String.intercalate ", " l ++ "]"

/-- A raw field mapping, as delivered by `dict(function_call.args)`. -/
abbrev FieldMap := List (String × Value)

/-- Python `d[k]` on a field mapping: `some v` when the key is present,
`none` when the lookup would raise `KeyError`. -/
def dictGet (m : FieldMap) (k : String) : Option Value :=
  match m with
  | [] => Option.none
  | (k', v) :: rest => if k' = k then some v else dictGet rest k

/-- The dictionary returned by a tool executor: `tool_used` plus a single
payload entry whose key is `task_output` or `note_output` and whose value
is the kwargs passed in. -/
structure ToolResult where
  tool_used : String
  payload_key : String
  payload : FieldMap
deriving DecidableEq

/-- Embeds `categorize_task(**kwargs)`: wraps the kwargs verbatim under
`tool_used = "TaskCategorizer"`, key `task_output`. -/
def categorize_task (kwargs : FieldMap) : ToolResult :=
  { tool_used := "TaskCategorizer", payload_key := "task_output", payload := kwargs }

/-- Embeds `synthesize_note(**kwargs)`: wraps the kwargs verbatim under
`tool_used = "NoteSynthesizer"`, key `note_output`. -/
def synthesize_note (kwargs : FieldMap) : ToolResult :=
  { tool_used := "NoteSynthesizer", payload_key := "note_output", payload := kwargs }

/-- One function call inside a gateway response (`response.function_calls`
element): the tool name chosen by the engine and the raw argument
mapping. -/
structure FunctionCall where
  name : String
  args : FieldMap
deriving DecidableEq

/-- A successful gateway response: the ordered list of function calls and
the free-text part (`response.text`, used only in a diagnostic print). -/
structure GenResponse where
  function_calls : List FunctionCall
  text : String
deriving DecidableEq

/-- Python exceptions the run can raise: `APIError` from the genai client,
`KeyError` from a dictionary lookup.  Both are caught by the orchestrator's
`except` clauses with identical observable behavior. -/
inductive PyErr where
  | apiError (msg : String)
  | keyError (key : String)
deriving DecidableEq

/-- The engine's behavior for one run: the outcome of the primary
`chat.send_message` call and the outcome of the A2A
`model.generate_content` call (if the run reaches it). -/
structure Gateway where
  primaryOutcome : Except PyErr GenResponse
  handoffOutcome : Except PyErr GenResponse

/-- Embeds `SYSTEM_INSTRUCTIONS`, the Minimalist Rules prompt constant
(an f-string with no interpolations, so its value is the literal text). -/
def SYSTEM_INSTRUCTIONS : String :=
  "\nYou are the Zero-Based Inbox Processor, a highly specialized Concierge Agent.\n" ++
  "Your sole purpose is to transform unstructured digital input into highly structured, actionable JSON outputs by strictly adhering to the user's Minimalist Rules.\n" ++
  "\n### YOUR MINIMALIST RULES (Non-Negotiable Constraints):\n" ++
  "1. MAX PRIORITY LIMIT: You must categorize a maximum of 3 tasks as 'high' priority per session. If the input implies more than three, you must intelligently downgrade the less urgent ones to 'medium' or 'low'.\n" ++
  "2. MANDATORY TAGGING: Every output (task or note) must be assigned exactly ONE context_tag from the following list: '#Work', '#Personal', '#Learning', or '#Finance'.\n" ++
  "3. NOTE SYNTHESIS LIMIT: Summary bullet points must not exceed 5 items. Be ruthless in your conciseness.\n" ++
  "\n### INSTRUCTION FLOW:\n" ++
  "1. Analyze the input to determine if it is an action (task) or long-form information (note).\n" ++
  "2. Call the appropriate tool (TaskCategorizerSchema or NoteSynthesizerSchema).\n" ++
  "3. CRITICAL A2A HAND-OFF: If the NoteSynthesizerSchema returns an 'embedded_task', you MUST process this task separately by calling the TaskCategorizerSchema immediately afterward.\n" ++
  "4. ONLY output the results from the tool calls. Do not include any conversational filler.\n"

/-- The model's acknowledgment turn seeded into the chat history. -/
def ACK_TEXT : String := "Minimalist rules loaded. Awaiting input."

/-- The fixed preamble turn pair seeded as `history` in `model.start_chat`:
the rule instructions as a user turn, the acknowledgment as a model turn. -/
def rulePreamble : List (String × String) :=
  [("user", SYSTEM_INSTRUCTIONS), ("model", ACK_TEXT)]

/-- One request issued to the gateway: the prior turns in scope for the
call, the prompt text sent, and the tool schemas the configuration
allows. -/
structure GatewayCall where
  priorTurns : List (String × String)
  prompt : String
  tools : List String
deriving DecidableEq

/-- The primary request: `chat.send_message(raw_input, config=config)` on a
chat seeded with the rule preamble, with both schemas in `config.tools`. -/
def primaryCall (raw_input : String) : GatewayCall :=
  { priorTurns := rulePreamble
    prompt := raw_input
    tools := ["TaskCategorizerSchema", "NoteSynthesizerSchema"] }

/-- Embeds the A2A prompt f-string built from the embedded task value. -/
def a2aPrompt (embedded_task : String) : String :=
  "Process this embedded task using the TaskCategorizer: " ++ embedded_task ++
  ". Remember the minimalist rules."

/-- The A2A request: `model.generate_content(a2a_prompt, config=a2a_config)`
— a fresh single-turn call (no chat history) whose configuration allows
only the TaskCategorizer schema. -/
def handoffCall (embedded_task : String) : GatewayCall :=
  { priorTurns := []
    prompt := a2aPrompt embedded_task
    tools := ["TaskCategorizerSchema"] }

/-- Accumulated run state: the `final_results` list and the trace of
gateway requests issued so far (the trace is recorded for specification
purposes; the Python function returns only `final_results`). -/
structure RunState where
  final_results : List ToolResult
  calls : List GatewayCall
deriving DecidableEq

/-- The `try` block of `process_input_with_orchestrator`, stepwise:
primary `send_message`; `while response.function_calls` (whose body always
breaks, so it runs at most once); dispatch on the first call's tool name
through `TOOL_FUNCTIONS`; the A2A hand-off guarded by
`tool_result[note_output][embedded_task]` being truthy (a missing
`embedded_task` key raises `KeyError`); the A2A `generate_content` call,
recording `categorize_task` on its first function call if any.  An
`error` result is a raised exception carrying the accumulated state. -/
def orchestratorBody (raw_input : String) (gw : Gateway) :
    Except (PyErr × RunState) RunState :=
  match gw.primaryOutcome with
  | Except.error e => Except.error (e, ⟨[], [primaryCall raw_input]⟩)
  | Except.ok response =>
    match response.function_calls with
    | [] => Except.ok ⟨[], [primaryCall raw_input]⟩
    | function_call :: _ =>
      if function_call.name = "TaskCategorizerSchema" then
        Except.ok ⟨[categorize_task function_call.args], [primaryCall raw_input]⟩
      else if function_call.name = "NoteSynthesizerSchema" then
        let tool_result := synthesize_note function_call.args
        match dictGet tool_result.payload "embedded_task" with
        | Option.none =>
          Except.error (PyErr.keyError "embedded_task",
            ⟨[tool_result], [primaryCall raw_input]⟩)
        | some v =>
          if truthy v then
            let embedded_task := pyStr v
            match gw.handoffOutcome with
            | Except.error e =>
              Except.error (e,
                ⟨[tool_result], [primaryCall raw_input, handoffCall embedded_task]⟩)
            | Except.ok a2a_response =>
              match a2a_response.function_calls with
              | [] =>
                Except.ok ⟨[tool_result],
                  [primaryCall raw_input, handoffCall embedded_task]⟩
              | a2a_call :: _ =>
                Except.ok ⟨[tool_result, categorize_task a2a_call.args],
                  [primaryCall raw_input, handoffCall embedded_task]⟩
          else Except.ok ⟨[tool_result], [primaryCall raw_input]⟩
      else Except.ok ⟨[], [primaryCall raw_input]⟩

/-- Embeds `process_input_with_orchestrator`: runs the try block; the
`except APIError` / `except Exception` handlers swallow any raised
exception and fall through to `return final_results`.  The first component
is the Python return value; the second is the trace of gateway requests
issued during the run. -/
def process_input_with_orchestrator (raw_input : String) (gw : Gateway) :
    List ToolResult × List GatewayCall :=
  match orchestratorBody raw_input gw with
  | Except.ok st => (st.final_results, st.calls)
  | Except.error (_, st) => (st.final_results, st.calls)

/-- Number of finalized results that are TaskCategorizer records with
`priority` equal to `high` — the spec's `highPriorityCount` read off a
result sequence. -/
def countHighPriority (results : List ToolResult) : Nat :=
  (results.filter (fun r =>
    decide (r.tool_used = "TaskCategorizer") &&
    decide (dictGet r.payload "priority" = some (Value.str "high")))).length

/-- A gateway call is rule-aware when the fixed instruction and
acknowledgment preamble turns are both among its prior turns. -/
def rulesAware (c : GatewayCall) : Prop :=
  ("user", SYSTEM_INSTRUCTIONS) ∈ c.priorTurns ∧ ("model", ACK_TEXT) ∈ c.priorTurns

/-- Exhaustive shape analysis of a run: every run returns one of five
outcome shapes — nothing; a single task; a single note without a hand-off
request; a single note with a hand-off request that recorded nothing; or a
note followed by a task recorded from the hand-off. -/
theorem run_shape (raw_input : String) (gw : Gateway) :
    process_input_with_orchestrator raw_input gw = ([], [primaryCall raw_input]) ∨
    (∃ a, process_input_with_orchestrator raw_input gw =
      ([categorize_task a], [primaryCall raw_input])) ∨
    (∃ a, process_input_with_orchestrator raw_input gw =
      ([synthesize_note a], [primaryCall raw_input])) ∨
    (∃ a x, process_input_with_orchestrator raw_input gw =
      ([synthesize_note a], [primaryCall raw_input, handoffCall x])) ∨
    (∃ a x b, process_input_with_orchestrator raw_input gw =
      ([synthesize_note a, categorize_task b],
        [primaryCall raw_input, handoffCall x])) := by
  obtain ⟨p, ho⟩ := gw
  cases p with
  | error e => left; rfl
  | ok resp =>
    obtain ⟨fcs, txt⟩ := resp
    cases fcs with
    | nil => left; rfl
    | cons fc rest =>
      by_cases h1 : fc.name = "TaskCategorizerSchema"
      · right; left
        exact ⟨fc.args, by
          simp [process_input_with_orchestrator, orchestratorBody, h1]⟩
      · by_cases h2 : fc.name = "NoteSynthesizerSchema"
        · cases hv : dictGet fc.args "embedded_task" with
          | none =>
            right; right; left
            exact ⟨fc.args, by
              simp [process_input_with_orchestrator, orchestratorBody, h1, h2,
                synthesize_note, hv]⟩
          | some v =>
            by_cases ht : truthy v = true
            · cases ho with
              | error e2 =>
                right; right; right; left
                exact ⟨fc.args, pyStr v, by
                  simp [process_input_with_orchestrator, orchestratorBody, h1, h2,
                    synthesize_note, hv, ht]⟩
              | ok aresp =>
                obtain ⟨afcs, atxt⟩ := aresp
                cases afcs with
                | nil =>
                  right; right; right; left
                  exact ⟨fc.args, pyStr v, by
                    simp [process_input_with_orchestrator, orchestratorBody, h1, h2,
                      synthesize_note, hv, ht]⟩
                | cons ac arest =>
                  right; right; right; right
                  exact ⟨fc.args, pyStr v, ac.args, by
                    simp [process_input_with_orchestrator, orchestratorBody, h1, h2,
                      synthesize_note, hv, ht]⟩
            · right; right; left
              exact ⟨fc.args, by
                simp [process_input_with_orchestrator, orchestratorBody, h1, h2,
                  synthesize_note, hv, ht]⟩
        · left
          simp [process_input_with_orchestrator, orchestratorBody, h1, h2]

/-- The count of high-priority task results is bounded by the length of
the result list. -/
theorem countHighPriority_le_length (l : List ToolResult) :
    countHighPriority l ≤ l.length :=
  List.length_filter_le _ l

/-- A run finalizes at most two records. -/
theorem results_length_le_two (raw_input : String) (gw : Gateway) :
    (process_input_with_orchestrator raw_input gw).1.length ≤ 2 := by
  rcases run_shape raw_input gw with h | ⟨a, h⟩ | ⟨a, h⟩ | ⟨a, x, h⟩ | ⟨a, x, b, h⟩ <;>
    simp [h]

/-- A run issues at most two gateway requests. -/
theorem calls_length_le_two (raw_input : String) (gw : Gateway) :
    (process_input_with_orchestrator raw_input gw).2.length ≤ 2 := by
  rcases run_shape raw_input gw with h | ⟨a, h⟩ | ⟨a, h⟩ | ⟨a, x, h⟩ | ⟨a, x, b, h⟩ <;>
    simp [h]

/-- Concrete gateway for exercising C1: the engine proposes one
high-priority task. -/
def gwC1 : Gateway :=
  { primaryOutcome := Except.ok ⟨[⟨"TaskCategorizerSchema",
      [("raw_task_text", Value.str "review the Q3 report"),
       ("action", Value.str "do"), ("priority", Value.str "high"),
       ("context_tag", Value.str "#Work")]⟩], ""⟩
    handoffOutcome := Except.ok ⟨[], ""⟩ }

/-- Claim C1: for every orchestration run, the session's high-priority
count never exceeds 3, and after three high-priority finalizations every
later high-priority candidate is finalized as medium.  The bound holds
because a run finalizes at most two records; for the same reason the
three-high precondition of the downgrade clause is unreachable within a
session. -/
theorem C1_high_priority_budget (raw_input : String) (gw : Gateway) :
    countHighPriority (process_input_with_orchestrator raw_input gw).1 ≤ 3 ∧
    ∀ i : Nat, ∀ r : ToolResult,
      3 ≤ countHighPriority ((process_input_with_orchestrator raw_input gw).1.take i) →
      (process_input_with_orchestrator raw_input gw).1.get? i = some r →
      dictGet r.payload "priority" = some (Value.str "medium") := by
  constructor
  · have h1 := countHighPriority_le_length (process_input_with_orchestrator raw_input gw).1
    have h2 := results_length_le_two raw_input gw
    omega
  · intro i r h3 hi
    exfalso
    have h1 := countHighPriority_le_length
      ((process_input_with_orchestrator raw_input gw).1.take i)
    have h2 : ((process_input_with_orchestrator raw_input gw).1.take i).length ≤
        (process_input_with_orchestrator raw_input gw).1.length := by
      rw [List.length_take]; exact min_le_right _ _
    have h4 := results_length_le_two raw_input gw
    omega

/-- Witness for C1 at a concrete run proposing one high-priority task. -/
theorem C1_high_priority_budget_witness :
    countHighPriority (process_input_with_orchestrator "t" gwC1).1 ≤ 3 :=
  (C1_high_priority_budget "t" gwC1).1

/-- Six summary bullets, one more than the spec's cap. -/
def sixBullets : List String := ["b1", "b2", "b3", "b4", "b5", "b6"]

/-- Note candidate fields carrying six summary bullets. -/
def noteArgsC2 : FieldMap :=
  [("original_source", Value.str "meeting"),
   ("summary_bullets", Value.strList sixBullets),
   ("conceptual_tags", Value.strList ["ai"]),
   ("embedded_task", Value.none)]

/-- Concrete gateway for C2: the engine selects the note schema with six
summary bullets. -/
def gwC2 : Gateway :=
  { primaryOutcome := Except.ok ⟨[⟨"NoteSynthesizerSchema", noteArgsC2⟩], ""⟩
    handoffOutcome := Except.ok ⟨[], ""⟩ }

/-- Claim C2 counterexample: a NoteRecord candidate whose summary_bullets
has six elements is finalized carrying all six verbatim — not the first
five the claim requires. -/
theorem C2_counterexample :
    (process_input_with_orchestrator "note" gwC2).1 = [synthesize_note noteArgsC2] ∧
    dictGet noteArgsC2 "summary_bullets" = some (Value.strList sixBullets) ∧
    sixBullets.length = 6 ∧
    dictGet noteArgsC2 "summary_bullets" ≠ some (Value.strList (sixBullets.take 5)) := by
  exact ⟨rfl, rfl, rfl, by decide⟩

/-- Claim C2 amended: no truncation is applied — whenever the primary
extraction selects the note schema, the finalized record carries the
candidate field mapping (summary_bullets included) verbatim. -/
theorem C2_no_truncation (raw_input txt : String) (fc : FunctionCall)
    (rest : List FunctionCall) (ho : Except PyErr GenResponse)
    (hn : fc.name = "NoteSynthesizerSchema") :
    (process_input_with_orchestrator raw_input
        ⟨Except.ok ⟨fc :: rest, txt⟩, ho⟩).1.head? =
      some (synthesize_note fc.args) := by
  have h1 : ¬ fc.name = "TaskCategorizerSchema" := by rw [hn]; decide
  cases hv : dictGet fc.args "embedded_task" with
  | none =>
    simp [process_input_with_orchestrator, orchestratorBody, h1, hn,
      synthesize_note, hv]
  | some v =>
    by_cases ht : truthy v = true
    · cases ho with
      | error e2 =>
        simp [process_input_with_orchestrator, orchestratorBody, h1, hn,
          synthesize_note, hv, ht]
      | ok aresp =>
        cases hfc : aresp.function_calls with
        | nil =>
          simp [process_input_with_orchestrator, orchestratorBody, h1, hn,
            synthesize_note, hv, ht, hfc]
        | cons ac arest =>
          simp [process_input_with_orchestrator, orchestratorBody, h1, hn,
            synthesize_note, hv, ht, hfc]
    · simp [process_input_with_orchestrator, orchestratorBody, h1, hn,
        synthesize_note, hv, ht]

/-- Witness for the amended C2 at the six-bullet gateway. -/
theorem C2_no_truncation_witness :
    (process_input_with_orchestrator "note" gwC2).1.head? =
      some (synthesize_note noteArgsC2) :=
  C2_no_truncation "note" "" ⟨"NoteSynthesizerSchema", noteArgsC2⟩ []
    (Except.ok ⟨[], ""⟩) rfl

/-- Task candidate fields with no context_tag and an out-of-enum
priority. -/
def taskArgsC3 : FieldMap :=
  [("raw_task_text", Value.str "fix the login bug"),
   ("action", Value.str "do"),
   ("priority", Value.str "urgent")]

/-- Concrete gateway for C3: the engine selects the task schema with a
missing required field and an invalid enum value. -/
def gwC3 : Gateway :=
  { primaryOutcome := Except.ok ⟨[⟨"TaskCategorizerSchema", taskArgsC3⟩], ""⟩
    handoffOutcome := Except.ok ⟨[], ""⟩ }

/-- Claim C3 counterexample: a task candidate missing context_tag, whose
priority is outside the declared enum, is finalized verbatim — no
validation failure occurs and the record is recorded. -/
theorem C3_counterexample :
    (process_input_with_orchestrator "t" gwC3).1 = [categorize_task taskArgsC3] ∧
    dictGet taskArgsC3 "context_tag" = Option.none ∧
    dictGet taskArgsC3 "priority" = some (Value.str "urgent") ∧
    ("urgent" : String) ∉ (["high", "medium", "low"] : List String) := by
  exact ⟨rfl, rfl, rfl, by decide⟩

/-- Claim C3 amended: no validation is performed — whenever the primary
extraction selects the task schema, the candidate field mapping is
finalized verbatim whatever fields it holds, and the run records exactly
that one result. -/
theorem C3_no_validation (raw_input txt : String) (fc : FunctionCall)
    (rest : List FunctionCall) (ho : Except PyErr GenResponse)
    (hn : fc.name = "TaskCategorizerSchema") :
    (process_input_with_orchestrator raw_input
        ⟨Except.ok ⟨fc :: rest, txt⟩, ho⟩).1 = [categorize_task fc.args] := by
  simp [process_input_with_orchestrator, orchestratorBody, hn]

/-- Witness for the amended C3 at the missing-context-tag gateway. -/
theorem C3_no_validation_witness :
    (process_input_with_orchestrator "t" gwC3).1 = [categorize_task taskArgsC3] :=
  C3_no_validation "t" "" ⟨"TaskCategorizerSchema", taskArgsC3⟩ []
    (Except.ok ⟨[], ""⟩) rfl

/-- The hand-off trigger condition: the primary response selected the
note schema and its embedded_task field holds a truthy value. -/
def handoffTriggered (gw : Gateway) : Prop :=
  ∃ resp fc rest v, gw.primaryOutcome = Except.ok resp ∧
    resp.function_calls = fc :: rest ∧
    fc.name = "NoteSynthesizerSchema" ∧
    dictGet fc.args "embedded_task" = some v ∧ truthy v = true

/-- Note candidate fields whose embedded_task is the empty string: a
non-null value that Python treats as falsy. -/
def noteArgsC4 : FieldMap :=
  [("original_source", Value.str "memo"), ("embedded_task", Value.str "")]

/-- Concrete gateway for C4: primary selects the note schema with an
empty-string embedded_task; the hand-off, were it attempted, would
return a task call. -/
def gwC4 : Gateway :=
  { primaryOutcome := Except.ok ⟨[⟨"NoteSynthesizerSchema", noteArgsC4⟩], ""⟩
    handoffOutcome := Except.ok ⟨[⟨"TaskCategorizerSchema", []⟩], ""⟩ }

/-- Claim C4 counterexample: embedded_task holds the empty string — a
non-null value — yet the run issues only the primary gateway request, so
no hand-off extraction is attempted. -/
theorem C4_counterexample :
    dictGet noteArgsC4 "embedded_task" = some (Value.str "") ∧
    Value.str "" ≠ Value.none ∧
    (process_input_with_orchestrator "n" gwC4).2 = [primaryCall "n"] := by
  exact ⟨rfl, by decide, rfl⟩

/-- Claim C4 amended: a hand-off extraction is attempted (the run issues
a second gateway request) if and only if the primary response selects the
note schema with a truthy — non-null and non-empty — embedded_task; and
any second request allows only the Task schema and carries the prompt
built from the embedded task text, the first being the primary request. -/
theorem C4_handoff_condition (raw_input : String) (gw : Gateway) :
    ((process_input_with_orchestrator raw_input gw).2.length = 2 ↔
      handoffTriggered gw) ∧
    (∀ c1 c2, (process_input_with_orchestrator raw_input gw).2 = [c1, c2] →
      c1 = primaryCall raw_input ∧ c1.tools = ["TaskCategorizerSchema", "NoteSynthesizerSchema"] ∧
      c2.tools = ["TaskCategorizerSchema"] ∧
      ∃ resp fc rest v, gw.primaryOutcome = Except.ok resp ∧
        resp.function_calls = fc :: rest ∧
        fc.name = "NoteSynthesizerSchema" ∧
        dictGet fc.args "embedded_task" = some v ∧ truthy v = true ∧
        c2 = handoffCall (pyStr v)) := by
  obtain ⟨p, ho⟩ := gw
  cases p with
  | error e =>
    constructor
    · constructor
      · intro h
        simp [process_input_with_orchestrator, orchestratorBody] at h
      · rintro ⟨resp, fc, rest, v, hok, -⟩
        exact Except.noConfusion hok
    · intro c1 c2 h
      simp [process_input_with_orchestrator, orchestratorBody] at h
  | ok resp =>
    obtain ⟨fcs, txt⟩ := resp
    cases fcs with
    | nil =>
      constructor
      · constructor
        · intro h
          simp [process_input_with_orchestrator, orchestratorBody] at h
        · rintro ⟨resp', fc, rest, v, hok, hfc, -⟩
          injection hok with h'
          rw [← h'] at hfc
          simp at hfc
      · intro c1 c2 h
        simp [process_input_with_orchestrator, orchestratorBody] at h
    | cons fc rest =>
      by_cases h1 : fc.name = "TaskCategorizerSchema"
      · constructor
        · constructor
          · intro h
            simp [process_input_with_orchestrator, orchestratorBody, h1] at h
          · rintro ⟨resp', fc', rest', v, hok, hfc, hn, -⟩
            injection hok with h'
            rw [← h'] at hfc
            simp at hfc
            rw [← hfc.1, h1] at hn
            exact absurd hn (by decide)
        · intro c1 c2 h
          simp [process_input_with_orchestrator, orchestratorBody, h1] at h
      · by_cases h2 : fc.name = "NoteSynthesizerSchema"
        · cases hv : dictGet fc.args "embedded_task" with
          | none =>
            constructor
            · constructor
              · intro h
                simp [process_input_with_orchestrator, orchestratorBody, h1, h2,
                  synthesize_note, hv] at h
              · rintro ⟨resp', fc', rest', v, hok, hfc, hn, hv', -⟩
                injection hok with h'
                rw [← h'] at hfc
                simp at hfc
                rw [← hfc.1, hv] at hv'
                exact Option.noConfusion hv'
            · intro c1 c2 h
              simp [process_input_with_orchestrator, orchestratorBody, h1, h2,
                synthesize_note, hv] at h
          | some v =>
            by_cases ht : truthy v = true
            · have hpos : ∀ c1 c2,
                  (c1 = primaryCall raw_input ∧ c2 = handoffCall (pyStr v)) →
                  c1 = primaryCall raw_input ∧
                  c1.tools = ["TaskCategorizerSchema", "NoteSynthesizerSchema"] ∧
                  c2.tools = ["TaskCategorizerSchema"] ∧
                  ∃ resp' fc' rest' v',
                    (Except.ok ⟨fc :: rest, txt⟩ : Except PyErr GenResponse) = Except.ok resp' ∧
                    resp'.function_calls = fc' :: rest' ∧
                    fc'.name = "NoteSynthesizerSchema" ∧
                    dictGet fc'.args "embedded_task" = some v' ∧ truthy v' = true ∧
                    c2 = handoffCall (pyStr v') := by
                rintro c1 c2 ⟨hc1, hc2⟩
                subst hc1; subst hc2
                exact ⟨rfl, rfl, rfl, ⟨fc :: rest, txt⟩, fc, rest, v, rfl, rfl, h2, hv, ht, rfl⟩
              cases ho with
              | error e2 =>
                constructor
                · constructor
                  · intro _
                    exact ⟨⟨fc :: rest, txt⟩, fc, rest, v, rfl, rfl, h2, hv, ht⟩
                  · intro _
                    simp [process_input_with_orchestrator, orchestratorBody, h1, h2,
                      synthesize_note, hv, ht]
                · intro c1 c2 h
                  simp [process_input_with_orchestrator, orchestratorBody, h1, h2,
                    synthesize_note, hv, ht] at h
                  exact hpos c1 c2 ⟨h.1.symm, h.2.symm⟩
              | ok aresp =>
                cases hfc2 : aresp.function_calls with
                | nil =>
                  constructor
                  · constructor
                    · intro _
                      exact ⟨⟨fc :: rest, txt⟩, fc, rest, v, rfl, rfl, h2, hv, ht⟩
                    · intro _
                      simp [process_input_with_orchestrator, orchestratorBody, h1, h2,
                        synthesize_note, hv, ht, hfc2]
                  · intro c1 c2 h
                    simp [process_input_with_orchestrator, orchestratorBody, h1, h2,
                      synthesize_note, hv, ht, hfc2] at h
                    exact hpos c1 c2 ⟨h.1.symm, h.2.symm⟩
                | cons ac arest =>
                  constructor
                  · constructor
                    · intro _
                      exact ⟨⟨fc :: rest, txt⟩, fc, rest, v, rfl, rfl, h2, hv, ht⟩
                    · intro _
                      simp [process_input_with_orchestrator, orchestratorBody, h1, h2,
                        synthesize_note, hv, ht, hfc2]
                  · intro c1 c2 h
                    simp [process_input_with_orchestrator, orchestratorBody, h1, h2,
                      synthesize_note, hv, ht, hfc2] at h
                    exact hpos c1 c2 ⟨h.1.symm, h.2.symm⟩
            · constructor
              · constructor
                · intro h
                  simp [process_input_with_orchestrator, orchestratorBody, h1, h2,
                    synthesize_note, hv, ht] at h
                · rintro ⟨resp', fc', rest', v', hok, hfc, hn, hv', ht'⟩
                  injection hok with h'
                  rw [← h'] at hfc
                  simp at hfc
                  rw [← hfc.1, hv] at hv'
                  injection hv' with h''
                  rw [← h''] at ht'
                  exact (ht ht').elim
              · intro c1 c2 h
                simp [process_input_with_orchestrator, orchestratorBody, h1, h2,
                  synthesize_note, hv, ht] at h
        · constructor
          · constructor
            · intro h
              simp [process_input_with_orchestrator, orchestratorBody, h1, h2] at h
            · rintro ⟨resp', fc', rest', v, hok, hfc, hn, -⟩
              injection hok with h'
              rw [← h'] at hfc
              simp at hfc
              rw [← hfc.1] at hn
              exact (h2 hn).elim
          · intro c1 c2 h
            simp [process_input_with_orchestrator, orchestratorBody, h1, h2] at h

/-- Witness for the amended C4: at a gateway whose note result embeds a
truthy task, the run issues exactly two gateway requests. -/
theorem C4_handoff_condition_witness :
    (process_input_with_orchestrator "n"
        ⟨Except.ok ⟨[⟨"NoteSynthesizerSchema",
            [("embedded_task", Value.str "call Jane")]⟩], ""⟩,
          Except.ok ⟨[], ""⟩⟩).2.length = 2 :=
  (C4_handoff_condition "n" _).1.mpr
    ⟨⟨[⟨"NoteSynthesizerSchema", [("embedded_task", Value.str "call Jane")]⟩], ""⟩,
      ⟨"NoteSynthesizerSchema", [("embedded_task", Value.str "call Jane")]⟩, [],
      Value.str "call Jane", rfl, rfl, rfl, rfl, rfl⟩

/-- Note candidate fields whose embedded_task is a truthy string. -/
def noteArgsC5 : FieldMap :=
  [("original_source", Value.str "memo"), ("embedded_task", Value.str "follow up")]

/-- Concrete gateway for C5: a run that triggers the hand-off. -/
def gwC5 : Gateway :=
  { primaryOutcome := Except.ok ⟨[⟨"NoteSynthesizerSchema", noteArgsC5⟩], ""⟩
    handoffOutcome := Except.ok ⟨[⟨"TaskCategorizerSchema",
      [("priority", Value.str "high")]⟩], ""⟩ }

/-- Claim C5 counterexample: on a run with a hand-off, the second gateway
request carries no prior turns at all — the instruction/acknowledgment
preamble pair is absent — and its prompt is even shorter than the
instruction text, so it cannot contain it. -/
theorem C5_counterexample :
    (process_input_with_orchestrator "n" gwC5).2 =
      [primaryCall "n", handoffCall "follow up"] ∧
    (handoffCall "follow up").priorTurns = [] ∧
    ¬ rulesAware (handoffCall "follow up") ∧
    (a2aPrompt "follow up").length < SYSTEM_INSTRUCTIONS.length := by
  refine ⟨rfl, rfl, ?_, by decide⟩
  intro h
  exact absurd h.1 (by simp [handoffCall])

/-- Claim C5 amended: the primary gateway request is rule-aware — its
prior turns carry the instruction/acknowledgment preamble pair — but the
hand-off request, when issued, carries no prior turns. -/
theorem C5_rule_context (raw_input : String) (gw : Gateway) :
    (∀ c, (process_input_with_orchestrator raw_input gw).2.head? = some c →
      rulesAware c) ∧
    (∀ c, ((process_input_with_orchestrator raw_input gw).2.drop 1).head? = some c →
      c.priorTurns = []) := by
  have hpc : rulesAware (primaryCall raw_input) :=
    ⟨by simp [primaryCall, rulePreamble], by simp [primaryCall, rulePreamble]⟩
  rcases run_shape raw_input gw with h | ⟨a, h⟩ | ⟨a, h⟩ | ⟨a, x, h⟩ | ⟨a, x, b, h⟩ <;>
    constructor <;> intro c hc <;> rw [h] at hc <;> simp at hc <;>
    subst hc <;> first | exact hpc | rfl

/-- Witness for the amended C5 at the hand-off-triggering gateway. -/
theorem C5_rule_context_witness : rulesAware (primaryCall "n") :=
  (C5_rule_context "n" gwC5).1 (primaryCall "n") (by rfl)

/-- Claim C6: a primary gateway failure ends the run with no results and
no hand-off attempt; a hand-off gateway failure still returns the
already-recorded primary note. -/
theorem C6_gateway_failure (raw_input txt : String) (e e2 : PyErr)
    (ho : Except PyErr GenResponse) (fc : FunctionCall) (rest : List FunctionCall)
    (v : Value)
    (hn : fc.name = "NoteSynthesizerSchema")
    (hv : dictGet fc.args "embedded_task" = some v)
    (ht : truthy v = true) :
    process_input_with_orchestrator raw_input ⟨Except.error e, ho⟩ =
      ([], [primaryCall raw_input]) ∧
    (process_input_with_orchestrator raw_input
        ⟨Except.ok ⟨fc :: rest, txt⟩, Except.error e2⟩).1 =
      [synthesize_note fc.args] := by
  constructor
  · rfl
  · have h1 : ¬ fc.name = "TaskCategorizerSchema" := by rw [hn]; decide
    simp [process_input_with_orchestrator, orchestratorBody, h1, hn,
      synthesize_note, hv, ht]

/-- Witness for C6: a timeout on the primary call yields no results; a
timeout on the hand-off call still returns the recorded note. -/
theorem C6_gateway_failure_witness :
    process_input_with_orchestrator "x"
        ⟨Except.error (PyErr.apiError "timeout"), Except.ok ⟨[], ""⟩⟩ =
      ([], [primaryCall "x"]) ∧
    (process_input_with_orchestrator "x"
        ⟨Except.ok ⟨[⟨"NoteSynthesizerSchema",
            [("embedded_task", Value.str "pay rent")]⟩], ""⟩,
          Except.error (PyErr.apiError "timeout")⟩).1 =
      [synthesize_note [("embedded_task", Value.str "pay rent")]] :=
  C6_gateway_failure "x" "" (PyErr.apiError "timeout") (PyErr.apiError "timeout")
    (Except.ok ⟨[], ""⟩)
    ⟨"NoteSynthesizerSchema", [("embedded_task", Value.str "pay rent")]⟩ []
    (Value.str "pay rent") rfl rfl rfl

/-- Concrete gateway for the C7 witness. -/
def gwC7 : Gateway := ⟨Except.ok ⟨[], ""⟩, Except.ok ⟨[], ""⟩⟩

/-- Claim C7: a run records at most two results and issues at most two
gateway requests (hand-off depth one); the first request is always the
primary one, and when two results exist the first is the primary note
and the second the hand-off task, in invocation order. -/
theorem C7_result_order (raw_input : String) (gw : Gateway) :
    (process_input_with_orchestrator raw_input gw).1.length ≤ 2 ∧
    (process_input_with_orchestrator raw_input gw).2.length ≤ 2 ∧
    (process_input_with_orchestrator raw_input gw).2.head? =
      some (primaryCall raw_input) ∧
    ∀ r1 r2, (process_input_with_orchestrator raw_input gw).1 = [r1, r2] →
      r1.tool_used = "NoteSynthesizer" ∧ r2.tool_used = "TaskCategorizer" ∧
      (process_input_with_orchestrator raw_input gw).2.length = 2 := by
  refine ⟨results_length_le_two raw_input gw, calls_length_le_two raw_input gw, ?_, ?_⟩
  · rcases run_shape raw_input gw with h | ⟨a, h⟩ | ⟨a, h⟩ | ⟨a, x, h⟩ | ⟨a, x, b, h⟩ <;>
      simp [h]
  · rcases run_shape raw_input gw with h | ⟨a, h⟩ | ⟨a, h⟩ | ⟨a, x, h⟩ | ⟨a, x, b, h⟩ <;>
      intro r1 r2 hr <;> rw [h] at hr <;> simp at hr
    obtain ⟨h5a, h5b⟩ := hr
    subst h5a
    subst h5b
    exact ⟨rfl, rfl, by rw [h]; rfl⟩

/-- Witness for C7 at a concrete no-tool-call run. -/
theorem C7_result_order_witness :
    (process_input_with_orchestrator "w" gwC7).1.length ≤ 2 :=
  (C7_result_order "w" gwC7).1

/-- Note candidate fields for the C8 run's primary result. -/
def noteArgsC8 : FieldMap :=
  [("original_source", Value.str "memo"), ("embedded_task", Value.str "call Jane")]

/-- Arguments of a hand-off function call that names the wrong (note)
schema. -/
def wrongSchemaArgs : FieldMap :=
  [("original_source", Value.str "oops"), ("summary_bullets", Value.strList ["x"])]

/-- Concrete gateway for C8: the hand-off response selects the note
schema instead of the task schema. -/
def gwC8 : Gateway :=
  { primaryOutcome := Except.ok ⟨[⟨"NoteSynthesizerSchema", noteArgsC8⟩], ""⟩
    handoffOutcome := Except.ok ⟨[⟨"NoteSynthesizerSchema", wrongSchemaArgs⟩], ""⟩ }

/-- Claim C8 counterexample: the hand-off response selects a schema kind
other than Task, yet an entry IS appended — the wrong schema's arguments
are recorded as a TaskCategorizer result. -/
theorem C8_counterexample :
    (process_input_with_orchestrator "n" gwC8).1 =
      [synthesize_note noteArgsC8, categorize_task wrongSchemaArgs] ∧
    (⟨"NoteSynthesizerSchema", wrongSchemaArgs⟩ : FunctionCall).name ≠
      "TaskCategorizerSchema" := by
  exact ⟨rfl, by decide⟩

/-- Claim C8 amended: when a hand-off is attempted, a response with no
function calls appends nothing and leaves the primary note intact, while
a response carrying any function call — whatever schema name it bears —
is executed as a task categorization of its arguments and appended. -/
theorem C8_handoff_outcome (raw_input txt atxt : String) (fc : FunctionCall)
    (rest : List FunctionCall) (v : Value) (afcs : List FunctionCall)
    (hn : fc.name = "NoteSynthesizerSchema")
    (hv : dictGet fc.args "embedded_task" = some v)
    (ht : truthy v = true) :
    (afcs = [] →
      (process_input_with_orchestrator raw_input
          ⟨Except.ok ⟨fc :: rest, txt⟩, Except.ok ⟨afcs, atxt⟩⟩).1 =
        [synthesize_note fc.args]) ∧
    (∀ ac arest, afcs = ac :: arest →
      (process_input_with_orchestrator raw_input
          ⟨Except.ok ⟨fc :: rest, txt⟩, Except.ok ⟨afcs, atxt⟩⟩).1 =
        [synthesize_note fc.args, categorize_task ac.args]) := by
  have h1 : ¬ fc.name = "TaskCategorizerSchema" := by rw [hn]; decide
  constructor
  · intro hempty
    subst hempty
    simp [process_input_with_orchestrator, orchestratorBody, h1, hn,
      synthesize_note, hv, ht]
  · intro ac arest hcons
    subst hcons
    simp [process_input_with_orchestrator, orchestratorBody, h1, hn,
      synthesize_note, hv, ht]

/-- Witness for the amended C8: an empty hand-off response leaves exactly
the primary note recorded. -/
theorem C8_handoff_outcome_witness :
    (process_input_with_orchestrator "n"
        ⟨Except.ok ⟨[⟨"NoteSynthesizerSchema", noteArgsC8⟩], ""⟩,
          Except.ok ⟨[], ""⟩⟩).1 =
      [synthesize_note noteArgsC8] :=
  (C8_handoff_outcome "n" "" "" ⟨"NoteSynthesizerSchema", noteArgsC8⟩ []
      (Value.str "call Jane") [] rfl rfl rfl).1 rfl

/-- Claim C9: every exception raised inside the try block is caught and
the orchestrator returns exactly the results (and trace) accumulated when
it was raised; no exception propagates to the caller. -/
theorem C9_exceptions_caught (raw_input : String) (gw : Gateway) (e : PyErr)
    (st : RunState) (h : orchestratorBody raw_input gw = Except.error (e, st)) :
    process_input_with_orchestrator raw_input gw = (st.final_results, st.calls) := by
  unfold process_input_with_orchestrator
  rw [h]

/-- Note candidate fields lacking the embedded_task key entirely. -/
def noteArgsC9 : FieldMap := [("original_source", Value.str "memo")]

/-- Concrete gateway for C9: the note result's mapping has no
embedded_task key, so the A2A guard raises KeyError mid-run. -/
def gwC9 : Gateway :=
  { primaryOutcome := Except.ok ⟨[⟨"NoteSynthesizerSchema", noteArgsC9⟩], ""⟩
    handoffOutcome := Except.ok ⟨[], ""⟩ }

/-- Witness for C9: the KeyError raised by the missing embedded_task key
is caught and the run still returns the already-recorded note. -/
theorem C9_exceptions_caught_witness :
    process_input_with_orchestrator "n" gwC9 =
      ([synthesize_note noteArgsC9], [primaryCall "n"]) :=
  C9_exceptions_caught "n" gwC9 (PyErr.keyError "embedded_task")
    ⟨[synthesize_note noteArgsC9], [primaryCall "n"]⟩ rfl

/-- Claim C10: only the first function call of a gateway response is
executed; trailing calls are ignored — dropping them changes nothing,
for the primary response and the hand-off response alike. -/
theorem C10_first_call_only (raw_input txt atxt : String) (fc ac : FunctionCall)
    (rest arest : List FunctionCall) (po ho : Except PyErr GenResponse) :
    process_input_with_orchestrator raw_input ⟨Except.ok ⟨fc :: rest, txt⟩, ho⟩ =
      process_input_with_orchestrator raw_input ⟨Except.ok ⟨[fc], txt⟩, ho⟩ ∧
    process_input_with_orchestrator raw_input ⟨po, Except.ok ⟨ac :: arest, atxt⟩⟩ =
      process_input_with_orchestrator raw_input ⟨po, Except.ok ⟨[ac], atxt⟩⟩ := by
  constructor
  · rfl
  · cases po with
    | error e => rfl
    | ok resp =>
      obtain ⟨fcs, t⟩ := resp
      cases fcs with
      | nil => rfl
      | cons fc' rest' =>
        by_cases h1 : fc'.name = "TaskCategorizerSchema"
        · simp [process_input_with_orchestrator, orchestratorBody, h1]
        · by_cases h2 : fc'.name = "NoteSynthesizerSchema"
          · cases hv : dictGet fc'.args "embedded_task" with
            | none =>
              simp [process_input_with_orchestrator, orchestratorBody, h1, h2,
                synthesize_note, hv]
            | some v =>
              by_cases ht : truthy v = true
              · simp [process_input_with_orchestrator, orchestratorBody, h1, h2,
                  synthesize_note, hv, ht]
              · simp [process_input_with_orchestrator, orchestratorBody, h1, h2,
                  synthesize_note, hv, ht]
          · simp [process_input_with_orchestrator, orchestratorBody, h1, h2]

end MinimalistAgent
